import Mathlib

set_option maxRecDepth 100000

/-!
Verification development for `src/DL-mpR/lecture_notes_gui.py`.

The file shallowly embeds the pipeline core of the `LectureNotesGUI`
class: the submit entry point `start_processing`, the orchestrator
`process_pipeline`, and the three stage operations `download_audio`,
`transcribe_audio` and `generate_notes`.  External tools (yt-dlp, the
whisper library, ollama) are modelled by an `Env` oracle describing the
outcome each tool would produce; a raised Python exception crossing a
function boundary is modelled by the `Except.error` case of that
function; observable side effects (dialogs, thread creation, process
invocations, file writes) are collected in an `Event` trace.
-/

namespace LectureNotes

abbrev Path := String

/-- File-system model: file contents by path, plus the set of directories
created so far (`output_dir.mkdir` touches only the latter). -/
structure Fs where
  files : Path → Option String
  dirs : Path → Bool

def fsRead (fs : Fs) (p : Path) : Option String := fs.files p

def fsWrite (fs : Fs) (p : Path) (c : String) : Fs :=
  { fs with files := fun q => if q = p then some c else fs.files q }

def mkdirP (fs : Fs) (d : Path) : Fs :=
  { fs with dirs := fun q => q == d || fs.dirs q }

/-- `Path(dir) / name`, as used by all three stages. -/
def joinPath (d : Path) (f : String) : Path := d ++ "/" ++ f

/-- The whitespace set stripped by Python `str.strip()` (ASCII part). -/
def pyIsSpace (c : Char) : Bool :=
  c == ' ' || c == '\t' || c == '\n' || c == '\r' || c == '\x0b' || c == '\x0c'

/-- Python `str.strip()`: drop leading and trailing whitespace. -/
def pyStrip (s : String) : String :=
  String.mk (((s.data.dropWhile pyIsSpace).reverse.dropWhile pyIsSpace).reverse)

/-- Outcome of invoking an external command-line tool: the executable is
missing (`FileNotFoundError`), it ran and exited non-zero with the given
stderr, or it ran and succeeded producing the given output (for yt-dlp the
bytes of the downloaded audio file, for ollama its stdout response). -/
inductive ToolOutcome where
  | missing : ToolOutcome
  | fails (stderr : String) : ToolOutcome
  | succeeds (output : String) : ToolOutcome
deriving DecidableEq

/-- Oracle for the external world: what each backend would do if invoked. -/
structure Env where
  ytdlp : ToolOutcome
  whisperAvailable : Bool
  whisperError : String
  whisperLoad : String → Except String Unit
  whisperTranscribe : String → Path → Except String String
  ollama : ToolOutcome

/-- Observable side effects, in emission order. `threadStart` records that
`start_processing` spawned a new background thread whose body is
`process_pipeline`; `stage*` records that the orchestrator invoked the
corresponding stage operation; `proc*` records an (attempted) external
process invocation; `whisperTranscribeCall size audio` records which model
the transcription actually ran with. -/
inductive Event where
  | dialogError (msg : String) : Event
  | dialogInfo (msg : String) : Event
  | threadStart : Event
  | mkdirOutput (dir : Path) : Event
  | stageDownload : Event
  | stageTranscribe : Event
  | stageSummarize : Event
  | procYtdlp (url : String) : Event
  | procOllama (model : String) (prompt : String) : Event
  | whisperLoad (size : String) : Event
  | whisperTranscribeCall (size : String) (audio : Path) : Event
  | fileWrite (p : Path) : Event
deriving DecidableEq

/-- GUI state: the tk variables, the cached whisper model (identified by
the size it was loaded with), the widget state driven by the pipeline,
and the file system. -/
structure St where
  youtube_url : String
  model_size : String
  ollama_model : String
  output_folder : String
  whisper_model : Option String
  btn_enabled : Bool
  progress_running : Bool
  notes_text : String
  status : String
  fs : Fs

def audioFileName : String := "lecture_audio1.mp3"

def transcriptFileName : String := "transcript.txt"

def notesFileName : String := "lecture_notes.txt"

/-- `download_audio`: invoke yt-dlp on the URL, writing the audio artifact
to `output_folder / "lecture_audio1.mp3"`.  A missing executable or a
non-zero exit is re-raised as an `Exception` (the `Except.error` case). -/
def download_audio (env : Env) (st : St) : St × List Event × Except String Path :=
  let audio_file := joinPath st.output_folder audioFileName
  match env.ytdlp with
  | .missing =>
      (st, [Event.procYtdlp st.youtube_url],
       .error "yt-dlp not found. Please install it: pip install yt-dlp")
  | .fails stderr =>
      (st, [Event.procYtdlp st.youtube_url],
       .error ("Failed to download audio: " ++ stderr))
  | .succeeds content =>
      ({ st with fs := fsWrite st.fs audio_file content },
       [Event.procYtdlp st.youtube_url, Event.fileWrite audio_file],
       .ok audio_file)

/-- Body of the try-block of `transcribe_audio` once a model of size
`size` is in hand: run the model on the audio, write the transcript
artifact.  An exception from `transcribe` is wrapped with the stage
context "Transcription failed: ". -/
def transcribeWith (env : Env) (st : St) (size : String)
    (audio_file transcript_file : Path) : St × List Event × Except String Path :=
  match env.whisperTranscribe size audio_file with
  | .error e =>
      (st, [Event.whisperTranscribeCall size audio_file],
       .error ("Transcription failed: " ++ e))
  | .ok text =>
      ({ st with fs := fsWrite st.fs transcript_file text },
       [Event.whisperTranscribeCall size audio_file, Event.fileWrite transcript_file],
       .ok transcript_file)

/-- `transcribe_audio`: raise if whisper is unavailable; otherwise load a
model only when none is cached (the source checks only
`self.whisper_model is None`, so a cached model of a different size is
reused as-is), then transcribe and write the transcript artifact. -/
def transcribe_audio (env : Env) (st : St) (audio_file : Path) :
    St × List Event × Except String Path :=
  let transcript_file := joinPath st.output_folder transcriptFileName
  if env.whisperAvailable then
    match st.whisper_model with
    | none =>
        match env.whisperLoad st.model_size with
        | .error e =>
            (st, [Event.whisperLoad st.model_size],
             .error ("Transcription failed: " ++ e))
        | .ok _ =>
            match transcribeWith env { st with whisper_model := some st.model_size }
                st.model_size audio_file transcript_file with
            | (st1, evs, r) => (st1, Event.whisperLoad st.model_size :: evs, r)
    | some m => transcribeWith env st m audio_file transcript_file
  else
    (st, [], .error ("Whisper not available: " ++ env.whisperError))

/-- `generate_notes`: read the transcript, build the prompt by appending
the transcript to the fixed instruction template, pipe it to ollama, and
on a zero exit write the notes artifact and replace the displayed notes.
A missing ollama raises the install-hint message; a non-zero exit raises
"Ollama error: stderr" which the catch-all of the same try-block re-wraps as
"Note generation failed: ...". -/
def generate_notes (env : Env) (st : St) (transcript_file : Path) :
    St × List Event × Except String Path :=
  let notes_file := joinPath st.output_folder notesFileName
  match fsRead st.fs transcript_file with
  | none =>
      (st, [], .error ("[Errno 2] No such file or directory: " ++ transcript_file))
  | some transcript =>
    let prompt := "You are an expert lecture note-taker.\nTake the following transcript and convert it into structured lecture notes with clear sections, headings, and bullet points.\nMake it well-organized and easy to study from.\n\nTranscript:\n" ++ transcript
    match env.ollama with
    | .missing =>
        (st, [],
         .error "Ollama not found. Please install Ollama and ensure it\x27s in your PATH")
    | .fails stderr =>
        (st, [Event.procOllama st.ollama_model prompt],
         .error ("Note generation failed: " ++ ("Ollama error: " ++ stderr)))
    | .succeeds out =>
        ({ st with fs := fsWrite st.fs notes_file out, notes_text := out },
         [Event.procOllama st.ollama_model prompt, Event.fileWrite notes_file],
         .ok notes_file)

def errStatus (e : String) : String := "❌ Error: " ++ e

def successStatus : String := "✅ Process completed successfully!"

/-- The `finally:` block of `process_pipeline`: stop the progress bar and
re-enable the process button. -/
def finallyBlock (st : St) : St :=
  { st with progress_running := false, btn_enabled := true }

/-- State at the top of the try-block: output directory created, status
set to the downloading message. -/
def dlState (st : St) : St :=
  { st with status := "Downloading audio...", fs := mkdirP st.fs st.output_folder }

/-- Status update entering the transcription step. -/
def trState (st : St) : St := { st with status := "Transcribing audio..." }

/-- Status update entering the note-generation step. -/
def genState (st : St) : St := { st with status := "Generating lecture notes..." }

/-- The try-block of `process_pipeline`: create the output directory, run
the three stages in sequence, stopping at the first raised exception
(returned as `some e`). -/
def runStages (env : Env) (st : St) : St × List Event × Option String :=
  match download_audio env (dlState st) with
  | (st1, ev1, .error e) =>
      (st1, Event.mkdirOutput st.output_folder :: Event.stageDownload :: ev1, some e)
  | (st1, ev1, .ok audio_file) =>
    match transcribe_audio env (trState st1) audio_file with
    | (st3, ev2, .error e) =>
        (st3, Event.mkdirOutput st.output_folder :: Event.stageDownload :: ev1 ++
                Event.stageTranscribe :: ev2, some e)
    | (st3, ev2, .ok transcript_file) =>
      match generate_notes env (genState st3) transcript_file with
      | (st5, ev3, .error e) =>
          (st5, Event.mkdirOutput st.output_folder :: Event.stageDownload :: ev1 ++
                  Event.stageTranscribe :: ev2 ++ Event.stageSummarize :: ev3, some e)
      | (st5, ev3, .ok _) =>
          ({ st5 with status := successStatus },
           Event.mkdirOutput st.output_folder :: Event.stageDownload :: ev1 ++
             Event.stageTranscribe :: ev2 ++ Event.stageSummarize :: ev3 ++
             [Event.dialogInfo "Lecture notes generated successfully!"], none)

/-- `process_pipeline`: the try-block, the catch-all except-clause that
turns any raised exception into the error status plus an error dialog,
and the finally-block.  No exception escapes this function. -/
def process_pipeline (env : Env) (st : St) : St × List Event :=
  match runStages env st with
  | (st1, evs, none) => (finallyBlock st1, evs)
  | (st1, evs, some e) =>
      (finallyBlock { st1 with status := errStatus e },
       evs ++ [Event.dialogError ("Process failed: " ++ e)])

/-- `start_processing`, the submit entry point: reject (error dialog, no
other effect) when the URL strips to empty; otherwise disable the button,
start the progress bar and spawn the pipeline thread.  Note: no check of
whether a run is already active. -/
def start_processing (st : St) : St × List Event :=
  if pyStrip st.youtube_url = "" then
    (st, [Event.dialogError "Please enter a YouTube URL"])
  else
    ({ st with btn_enabled := false, progress_running := true },
     [Event.threadStart])

/-- A pipeline run is in flight exactly while the progress bar is running
(started on accept in `start_processing`, stopped in the finally-block of
`process_pipeline`). -/
def runActive (st : St) : Bool := st.progress_running

/-- Behavior of the tk process button: a disabled ttk widget does not
fire its command, an enabled one invokes `start_processing`. -/
def click_process_btn (st : St) : St × List Event :=
  if st.btn_enabled then start_processing st else (st, [])

/-- The fixed instruction template of the summarization prompt, as the
spec describes it: the transcript is appended right after it. -/
def promptTemplate : String :=
  "You are an expert lecture note-taker.\nTake the following transcript and convert it into structured lecture notes with clear sections, headings, and bullet points.\nMake it well-organized and easy to study from.\n\nTranscript:\n"

/-- The paths a trace wrote, in order. -/
def fileWritesOf (evs : List Event) : List Path :=
  evs.filterMap (fun e => match e with | .fileWrite p => some p | _ => none)

/-- Empty file system. -/
def fs0 : Fs := { files := fun _ => none, dirs := fun _ => false }

/-- A fresh GUI state with the default tk variable values and a URL
entered in the form. -/
def stInit : St :=
  { youtube_url := "https://youtu.be/dQw4w9WgXcQ"
    model_size := "base"
    ollama_model := "llama3"
    output_folder := "./"
    whisper_model := none
    btn_enabled := true
    progress_running := false
    notes_text := ""
    status := "Ready to process"
    fs := fs0 }

/-- Environment in which all three backends succeed. -/
def envAllOk : Env :=
  { ytdlp := .succeeds "AUDIOBYTES"
    whisperAvailable := true
    whisperError := ""
    whisperLoad := fun _ => .ok ()
    whisperTranscribe := fun _ _ => .ok "Hello world."
    ollama := .succeeds "NOTES" }

/-- Environment in which the yt-dlp executable is not installed. -/
def envYtdlpMissing : Env := { envAllOk with ytdlp := .missing }

/-- Environment in which yt-dlp runs but exits non-zero. -/
def envYtdlpFails : Env := { envAllOk with ytdlp := .fails "ERROR: unsupported URL" }

def stEmptyUrl : St := { stInit with youtube_url := "" }

def stWhitespaceUrl : St := { stInit with youtube_url := " \t  " }

/-- `joinPath` under a common directory separates files whose names have
different lengths. -/
theorem joinPath_ne_of_length_ne (d : Path) (a b : String)
    (h : a.length ≠ b.length) : joinPath d a ≠ joinPath d b := by
  intro he
  apply h
  have hl := congrArg String.length he
  simp only [joinPath, String.length_append] at hl
  omega

/- Section: claim theorems. -/

/-- C5: a submission whose sourceUrl is empty is rejected before any
stage runs: the state (file system, directories, widgets, status) is
unchanged, the only effect is an error dialog, no pipeline thread is
spawned, and the orchestrator stays idle. -/
theorem C5_empty_url_rejected (st : St) (h : st.youtube_url = "") :
    (start_processing st).1 = st ∧
    (start_processing st).2 = [Event.dialogError "Please enter a YouTube URL"] ∧
    Event.threadStart ∉ (start_processing st).2 ∧
    runActive (start_processing st).1 = runActive st := by
  have hc : pyStrip st.youtube_url = "" := by rw [h]; rfl
  simp [start_processing, hc, runActive]

/-- C5 witness: the rejection at the concrete empty-URL state. -/
theorem C5_empty_url_rejected_witness :
    (start_processing stEmptyUrl).1 = stEmptyUrl ∧
    (start_processing stEmptyUrl).2 = [Event.dialogError "Please enter a YouTube URL"] ∧
    Event.threadStart ∉ (start_processing stEmptyUrl).2 ∧
    runActive (start_processing stEmptyUrl).1 = runActive stEmptyUrl :=
  C5_empty_url_rejected stEmptyUrl rfl

/-- C9: a submission whose sourceUrl strips to the empty string (for
example, all-whitespace) is rejected exactly like an empty one: the state
is unchanged and the only effect is the error dialog. -/
theorem C9_whitespace_url_rejected (st : St) (h : pyStrip st.youtube_url = "") :
    (start_processing st).1 = st ∧
    (start_processing st).2 = [Event.dialogError "Please enter a YouTube URL"] := by
  simp [start_processing, h]

/-- C9 witness: the rejection at a concrete whitespace-only URL. -/
theorem C9_whitespace_url_rejected_witness :
    (start_processing stWhitespaceUrl).1 = stWhitespaceUrl ∧
    (start_processing stWhitespaceUrl).2 =
      [Event.dialogError "Please enter a YouTube URL"] :=
  C9_whitespace_url_rejected stWhitespaceUrl (by decide)

/-- C1 counterexample: after an accepted submission a run is active, yet
a second call to the submit entry point `start_processing` (URL still
filled in) spawns a second pipeline thread instead of being rejected:
the function performs no active-run check. -/
theorem C1_counterexample :
    runActive (start_processing stInit).1 = true ∧
    (start_processing (start_processing stInit).1).2 = [Event.threadStart] := by
  decide

/-- C1 amended: single-flight is enforced by the button state, not by
`start_processing`: an accepted submission disables the process button
before spawning the pipeline thread, a click on the disabled button does
not fire (so no second thread starts while the run is active), and the
button is re-enabled only when `process_pipeline` terminates. -/
theorem C1_amended_button_single_flight (st : St)
    (h : ¬ pyStrip st.youtube_url = "") :
    (start_processing st).1.btn_enabled = false ∧
    click_process_btn (start_processing st).1 = ((start_processing st).1, []) ∧
    ∀ env : Env, (process_pipeline env (start_processing st).1).1.btn_enabled = true := by
  have h1 : (start_processing st).1 =
      { st with btn_enabled := false, progress_running := true } := by
    simp [start_processing, h]
  refine ⟨by rw [h1], by rw [h1]; simp [click_process_btn], ?_⟩
  intro env
  unfold process_pipeline
  rcases hr : runStages env (start_processing st).1 with ⟨st1, evs, exc⟩
  rcases exc with _ | e <;> simp [finallyBlock]

/-- C1 amended witness: the button mechanism at the concrete initial
state and the all-success environment. -/
theorem C1_amended_button_single_flight_witness :
    (start_processing stInit).1.btn_enabled = false ∧
    click_process_btn (start_processing stInit).1 = ((start_processing stInit).1, []) ∧
    (process_pipeline envAllOk (start_processing stInit).1).1.btn_enabled = true :=
  ⟨(C1_amended_button_single_flight stInit (by decide)).1,
   (C1_amended_button_single_flight stInit (by decide)).2.1,
   (C1_amended_button_single_flight stInit (by decide)).2.2 envAllOk⟩

/-- C2 counterexample: with yt-dlp not installed, the download stage does
not return a Success-or-Failure value: it raises an exception (the
`Except.error` case, modelling a Python `raise`) that propagates past the
stage boundary to its caller. -/
theorem C2_counterexample :
    (download_audio envYtdlpMissing stInit).2.2 =
      Except.error "yt-dlp not found. Please install it: pip install yt-dlp" := by
  rfl

def stCachedBase : St :=
  { stInit with whisper_model := some "base", model_size := "large" }

/-- C3, evaluated at the failing input: with a model of size "base"
cached from an earlier run and size "large" newly requested,
`transcribe_audio` performs no model load and transcribes with the
cached "base" model, and the cache still holds "base" afterwards.  The
source comment announces reloading when the size changed, but the code
checks only whether the cache is `None`. -/
theorem C3_stale_cached_model :
    (transcribe_audio envAllOk stCachedBase "audio.mp3").2.1 =
      [Event.whisperTranscribeCall "base" "audio.mp3",
       Event.fileWrite (joinPath "./" transcriptFileName)] ∧
    (transcribe_audio envAllOk stCachedBase "audio.mp3").1.whisper_model =
      some "base" := by
  decide

/-- C6: any prompt actually piped to the ollama process by
`generate_notes` is exactly the fixed instruction template with the
transcript read from the transcript artifact appended verbatim after
it. -/
theorem C6_prompt_verbatim (env : Env) (st : St) (tf : Path) (t : String)
    (h : fsRead st.fs tf = some t) (m p : String)
    (hp : Event.procOllama m p ∈ (generate_notes env st tf).2.1) :
    p = promptTemplate ++ t := by
  unfold generate_notes at hp
  rw [h] at hp
  rcases ho : env.ollama with _ | s | o <;> rw [ho] at hp <;> simp at hp
  · exact hp.2
  · exact hp.2

def stWithTranscript : St :=
  { stInit with fs := fsWrite fs0 (joinPath "./" transcriptFileName) "Hello world." }

/-- C6 witness: with the transcript artifact holding exactly
"Hello world.", the prompt sent to ollama is the template with that
string appended byte-for-byte. -/
theorem C6_prompt_verbatim_witness :
    fsRead stWithTranscript.fs (joinPath "./" transcriptFileName) =
      some "Hello world." ∧
    Event.procOllama "llama3" (promptTemplate ++ "Hello world.") ∈
      (generate_notes envAllOk stWithTranscript (joinPath "./" transcriptFileName)).2.1 ∧
    promptTemplate ++ "Hello world." = promptTemplate ++ "Hello world." :=
  ⟨by decide, by decide,
   C6_prompt_verbatim envAllOk stWithTranscript (joinPath "./" transcriptFileName)
     "Hello world." (by decide) "llama3" (promptTemplate ++ "Hello world.")
     (by decide)⟩

/-- The missing-executable message can never coincide with a
ran-and-failed message, whatever the stderr: the two begin with
different characters. -/
theorem ytdlpMissingMsg_ne (s : String) :
    "yt-dlp not found. Please install it: pip install yt-dlp" ≠
      "Failed to download audio: " ++ s := by
  intro h
  have h1 : ("yt-dlp not found. Please install it: pip install yt-dlp").data.head? =
      some 'y' := rfl
  rw [h, String.data_append] at h1
  rw [show ("Failed to download audio: ").data =
        'F' :: ("ailed to download audio: ").data from rfl] at h1
  simp at h1

/-- C8: the download stage fails when yt-dlp is missing and when it
exits non-zero, and the two messages are distinguishable: the missing
case reports the tool is not installed, the ran-and-failed case embeds
the stderr of the tool, and no stderr makes the two coincide. -/
theorem C8_download_failure_modes (env : Env) (st : St) (stderr : String) :
    (env.ytdlp = ToolOutcome.missing →
      (download_audio env st).2.2 =
        Except.error "yt-dlp not found. Please install it: pip install yt-dlp") ∧
    (env.ytdlp = ToolOutcome.fails stderr →
      (download_audio env st).2.2 =
        Except.error ("Failed to download audio: " ++ stderr) ∧
      ∃ a, "Failed to download audio: " ++ stderr = a ++ stderr) ∧
    (∀ s, "yt-dlp not found. Please install it: pip install yt-dlp" ≠
        "Failed to download audio: " ++ s) := by
  refine ⟨?_, ?_, fun s => ytdlpMissingMsg_ne s⟩
  · intro h; simp [download_audio, h]
  · intro h
    exact ⟨by simp [download_audio, h], "Failed to download audio: ", rfl⟩

/-- C8 witness: both failure modes at concrete environments. -/
theorem C8_download_failure_modes_witness :
    (download_audio envYtdlpMissing stInit).2.2 =
      Except.error "yt-dlp not found. Please install it: pip install yt-dlp" ∧
    (download_audio envYtdlpFails stInit).2.2 =
      Except.error ("Failed to download audio: " ++ "ERROR: unsupported URL") :=
  ⟨(C8_download_failure_modes envYtdlpMissing stInit "ERROR: unsupported URL").1 rfl,
   ((C8_download_failure_modes envYtdlpFails stInit "ERROR: unsupported URL").2.1 rfl).1⟩

/-- If the try-block ran to completion with no exception, the status it
left behind is the success status. -/
theorem runStages_none_status (env : Env) (st st1 : St) (evs : List Event)
    (h : runStages env st = (st1, evs, none)) : st1.status = successStatus := by
  unfold runStages at h
  rcases hd : download_audio env (dlState st) with ⟨sa, ea, ra⟩
  rw [hd] at h
  rcases ra with e | af
  · simp at h
  · dsimp only at h
    rcases ht : transcribe_audio env (trState sa) af with ⟨sb, eb, rb⟩
    rw [ht] at h
    rcases rb with e | tf
    · simp at h
    · dsimp only at h
      rcases hg : generate_notes env (genState sb) tf with ⟨sc, ec, rc⟩
      rw [hg] at h
      rcases rc with e | nf
      · simp at h
      · simp [Prod.ext_iff] at h
        rw [← h.1]

/-- C2 amended: each stage signals failure by raising an exception
(wrapped with its stage context) past the stage boundary; the
catch-all of the orchestrator in `process_pipeline` catches every such
exception, so for every environment and state the pipeline terminates
with the finally-block run (progress stopped, button re-enabled) and a
definite terminal status — the success status or the error status
carrying the caught message.  No fault is left unhandled past
`process_pipeline`. -/
theorem C2_amended_orchestrator_catches (env : Env) (st : St) :
    (process_pipeline env st).1.btn_enabled = true ∧
    (process_pipeline env st).1.progress_running = false ∧
    ((process_pipeline env st).1.status = successStatus ∨
      ∃ e, (process_pipeline env st).1.status = errStatus e) := by
  unfold process_pipeline
  rcases hr : runStages env st with ⟨st1, evs, exc⟩
  rcases exc with _ | e
  · exact ⟨rfl, rfl, Or.inl (runStages_none_status env st st1 evs hr)⟩
  · exact ⟨rfl, rfl, Or.inr ⟨e, rfl⟩⟩

/-- The download trace never carries a stage marker. -/
theorem download_audio_stage_free (env : Env) (st : St) :
    Event.stageDownload ∉ (download_audio env st).2.1 ∧
    Event.stageTranscribe ∉ (download_audio env st).2.1 ∧
    Event.stageSummarize ∉ (download_audio env st).2.1 := by
  rcases hy : env.ytdlp with _ | s | c <;> simp [download_audio, hy]

/-- The transcription try-block trace never carries a stage marker. -/
theorem transcribeWith_stage_free (env : Env) (st : St) (size : String)
    (af tf : Path) :
    Event.stageDownload ∉ (transcribeWith env st size af tf).2.1 ∧
    Event.stageTranscribe ∉ (transcribeWith env st size af tf).2.1 ∧
    Event.stageSummarize ∉ (transcribeWith env st size af tf).2.1 := by
  rcases hT : env.whisperTranscribe size af with e | t <;>
    simp [transcribeWith, hT]

/-- The transcription trace never carries a stage marker. -/
theorem transcribe_audio_stage_free (env : Env) (st : St) (af : Path) :
    Event.stageDownload ∉ (transcribe_audio env st af).2.1 ∧
    Event.stageTranscribe ∉ (transcribe_audio env st af).2.1 ∧
    Event.stageSummarize ∉ (transcribe_audio env st af).2.1 := by
  rcases hA : env.whisperAvailable
  · simp [transcribe_audio, hA]
  · rcases hwm : st.whisper_model with _ | m
    · rcases hL : env.whisperLoad st.model_size with e | u
      · simp [transcribe_audio, hA, hwm, hL]
      · have hW := transcribeWith_stage_free env
          { st with whisper_model := some st.model_size } st.model_size af
          (joinPath st.output_folder transcriptFileName)
        rcases hWc : transcribeWith env { st with whisper_model := some st.model_size }
            st.model_size af (joinPath st.output_folder transcriptFileName) with ⟨s1, e1, r1⟩
        rw [hWc] at hW
        simp [transcribe_audio, hA, hwm, hL, hWc]
        exact ⟨hW.1, hW.2.1, hW.2.2⟩
    · have hW := transcribeWith_stage_free env st m af
        (joinPath st.output_folder transcriptFileName)
      simpa [transcribe_audio, hA, hwm] using hW

/-- The note-generation trace never carries a stage marker. -/
theorem generate_notes_stage_free (env : Env) (st : St) (tf : Path) :
    Event.stageDownload ∉ (generate_notes env st tf).2.1 ∧
    Event.stageTranscribe ∉ (generate_notes env st tf).2.1 ∧
    Event.stageSummarize ∉ (generate_notes env st tf).2.1 := by
  rcases hr : fsRead st.fs tf with _ | t <;> rcases ho : env.ollama with _ | s | o <;>
    simp [generate_notes, hr, ho]

/-- Each stage marker occurs at most once in a try-block trace. -/
theorem runStages_counts (env : Env) (st : St) :
    (runStages env st).2.1.count Event.stageDownload ≤ 1 ∧
    (runStages env st).2.1.count Event.stageTranscribe ≤ 1 ∧
    (runStages env st).2.1.count Event.stageSummarize ≤ 1 := by
  unfold runStages
  rcases hd : download_audio env (dlState st) with ⟨sa, ea, ra⟩
  have hda := download_audio_stage_free env (dlState st)
  rw [hd] at hda
  rcases ra with e | af
  · dsimp only
    simp [List.count_cons, List.count_eq_zero_of_not_mem hda.1,
      List.count_eq_zero_of_not_mem hda.2.1, List.count_eq_zero_of_not_mem hda.2.2]
  · dsimp only
    rcases ht : transcribe_audio env (trState sa) af with ⟨sb, eb, rb⟩
    have hta := transcribe_audio_stage_free env (trState sa) af
    rw [ht] at hta
    rcases rb with e | tf
    · dsimp only
      simp [List.count_cons, List.count_append,
        List.count_eq_zero_of_not_mem hda.1, List.count_eq_zero_of_not_mem hda.2.1,
        List.count_eq_zero_of_not_mem hda.2.2, List.count_eq_zero_of_not_mem hta.1,
        List.count_eq_zero_of_not_mem hta.2.1, List.count_eq_zero_of_not_mem hta.2.2]
    · dsimp only
      rcases hg : generate_notes env (genState sb) tf with ⟨sc, ec, rc⟩
      have hga := generate_notes_stage_free env (genState sb) tf
      rw [hg] at hga
      rcases rc with e | nf <;> dsimp only <;>
        simp [List.count_cons, List.count_append,
          List.count_eq_zero_of_not_mem hda.1, List.count_eq_zero_of_not_mem hda.2.1,
          List.count_eq_zero_of_not_mem hda.2.2, List.count_eq_zero_of_not_mem hta.1,
          List.count_eq_zero_of_not_mem hta.2.1, List.count_eq_zero_of_not_mem hta.2.2,
          List.count_eq_zero_of_not_mem hga.1, List.count_eq_zero_of_not_mem hga.2.1,
          List.count_eq_zero_of_not_mem hga.2.2]

/-- If the transcription stage fails however it is invoked, the try-block
trace never reaches the summarize stage. -/
theorem runStages_no_summarize_of_transcribe_fails (env : Env) (st : St)
    (htf : ∀ (s : St) (af : Path), ∃ e, (transcribe_audio env s af).2.2 = Except.error e) :
    Event.stageSummarize ∉ (runStages env st).2.1 := by
  unfold runStages
  rcases hd : download_audio env (dlState st) with ⟨sa, ea, ra⟩
  have hda := download_audio_stage_free env (dlState st)
  rw [hd] at hda
  rcases ra with e | af
  · dsimp only
    simp [hda.2.2]
  · dsimp only
    rcases ht : transcribe_audio env (trState sa) af with ⟨sb, eb, rb⟩
    have hta := transcribe_audio_stage_free env (trState sa) af
    rw [ht] at hta
    obtain ⟨e0, he⟩ := htf (trState sa) af
    rw [ht] at he
    dsimp only at he
    subst he
    dsimp only
    simp [hda.2.2, hta.2.2]

/-- Environment in which the whisper library failed to import, so the
transcription stage fails in every invocation. -/
def envNoWhisper : Env :=
  { envAllOk with
    whisperAvailable := false
    whisperError := "No module named whisper" }

/-- C4: a failure at any stage aborts all remaining stages with no
retry.  First part: when the download stage fails (yt-dlp missing or
exiting non-zero), the transcribe and summarize stages are never invoked
while download itself is invoked exactly once.  Second part: when the
transcription stage fails (in whatever way it is invoked), the summarize
stage is never invoked.  Third part: in every run, whatever the
environment, each of the three stages is invoked at most once (no
retry); a summarize failure has no later stage to abort. -/
theorem C4_failure_aborts_rest :
    (∀ (env : Env) (st : St), (∀ c, env.ytdlp ≠ ToolOutcome.succeeds c) →
      Event.stageTranscribe ∉ (process_pipeline env st).2 ∧
      Event.stageSummarize ∉ (process_pipeline env st).2 ∧
      (process_pipeline env st).2.count Event.stageDownload = 1) ∧
    (∀ (env : Env) (st : St),
      (∀ (s : St) (af : Path), ∃ e, (transcribe_audio env s af).2.2 = Except.error e) →
      Event.stageSummarize ∉ (process_pipeline env st).2) ∧
    (∀ (env : Env) (st : St),
      (process_pipeline env st).2.count Event.stageDownload ≤ 1 ∧
      (process_pipeline env st).2.count Event.stageTranscribe ≤ 1 ∧
      (process_pipeline env st).2.count Event.stageSummarize ≤ 1) := by
  refine ⟨?_, ?_, ?_⟩
  · intro env st h
    rcases hy : env.ytdlp with _ | s | c
    · simp [process_pipeline, runStages, download_audio, dlState, hy, List.count_cons]
    · simp [process_pipeline, runStages, download_audio, dlState, hy, List.count_cons]
    · exact absurd hy (h c)
  · intro env st htf
    have hs := runStages_no_summarize_of_transcribe_fails env st htf
    unfold process_pipeline
    rcases hr : runStages env st with ⟨s1, evs, exc⟩
    rw [hr] at hs
    rcases exc with _ | e <;> dsimp only <;> simp_all
  · intro env st
    have hc := runStages_counts env st
    unfold process_pipeline
    rcases hr : runStages env st with ⟨s1, evs, exc⟩
    rw [hr] at hc
    rcases exc with _ | e <;> dsimp only <;>
      simp_all [List.count_append, List.count_cons]

/-- C4 witness: with yt-dlp missing, no downstream stage is invoked; and
with whisper unavailable (download succeeding), the summarize stage is
never invoked. -/
theorem C4_failure_aborts_rest_witness :
    (Event.stageTranscribe ∉ (process_pipeline envYtdlpMissing stInit).2 ∧
     Event.stageSummarize ∉ (process_pipeline envYtdlpMissing stInit).2 ∧
     (process_pipeline envYtdlpMissing stInit).2.count Event.stageDownload = 1) ∧
    Event.stageSummarize ∉ (process_pipeline envNoWhisper stInit).2 :=
  ⟨C4_failure_aborts_rest.1 envYtdlpMissing stInit (fun _ h => ToolOutcome.noConfusion h),
   C4_failure_aborts_rest.2.1 envNoWhisper stInit (fun _ _ =>
     ⟨"Whisper not available: " ++ "No module named whisper", rfl⟩)⟩

/-- The download stage never touches the displayed notes, the output
folder setting, or the notes artifact. -/
theorem download_audio_frame (env : Env) (st : St) :
    (download_audio env st).1.notes_text = st.notes_text ∧
    (download_audio env st).1.output_folder = st.output_folder ∧
    fsRead (download_audio env st).1.fs (joinPath st.output_folder notesFileName) =
      fsRead st.fs (joinPath st.output_folder notesFileName) := by
  have hne : joinPath st.output_folder notesFileName ≠
      joinPath st.output_folder audioFileName :=
    joinPath_ne_of_length_ne st.output_folder notesFileName audioFileName (by decide)
  rcases hy : env.ytdlp with _ | s | c <;>
    simp [download_audio, hy, fsRead, fsWrite, hne]

/-- The transcription try-block never touches the displayed notes, the
output folder setting, or the notes artifact. -/
theorem transcribeWith_frame (env : Env) (st : St) (size : String) (af : Path) :
    (transcribeWith env st size af (joinPath st.output_folder transcriptFileName)).1.notes_text =
      st.notes_text ∧
    (transcribeWith env st size af (joinPath st.output_folder transcriptFileName)).1.output_folder =
      st.output_folder ∧
    fsRead (transcribeWith env st size af
        (joinPath st.output_folder transcriptFileName)).1.fs
        (joinPath st.output_folder notesFileName) =
      fsRead st.fs (joinPath st.output_folder notesFileName) := by
  have hne : joinPath st.output_folder notesFileName ≠
      joinPath st.output_folder transcriptFileName :=
    joinPath_ne_of_length_ne st.output_folder notesFileName transcriptFileName (by decide)
  rcases hT : env.whisperTranscribe size af with e | t <;>
    simp [transcribeWith, hT, fsRead, fsWrite, hne]

/-- The transcription stage never touches the displayed notes, the
output folder setting, or the notes artifact. -/
theorem transcribe_audio_frame (env : Env) (st : St) (af : Path) :
    (transcribe_audio env st af).1.notes_text = st.notes_text ∧
    (transcribe_audio env st af).1.output_folder = st.output_folder ∧
    fsRead (transcribe_audio env st af).1.fs (joinPath st.output_folder notesFileName) =
      fsRead st.fs (joinPath st.output_folder notesFileName) := by
  rcases hA : env.whisperAvailable
  · simp [transcribe_audio, hA]
  · rcases hwm : st.whisper_model with _ | m
    · rcases hL : env.whisperLoad st.model_size with e | u
      · simp [transcribe_audio, hA, hwm, hL]
      · have hW := transcribeWith_frame env
            { st with whisper_model := some st.model_size } st.model_size af
        dsimp only at hW
        rcases hWc : transcribeWith env { st with whisper_model := some st.model_size }
            st.model_size af (joinPath st.output_folder transcriptFileName) with ⟨s1, e1, r1⟩
        rw [hWc] at hW
        simp [transcribe_audio, hA, hwm, hL, hWc]
        exact ⟨hW.1, hW.2.1, hW.2.2⟩
    · have hW := transcribeWith_frame env st m af
      simpa [transcribe_audio, hA, hwm] using hW

/-- A failing note-generation step leaves the state fully unchanged: the
notes artifact and the displayed notes are written only after ollama
exits with code zero. -/
theorem generate_notes_error_frame (env : Env) (st : St) (tf : Path)
    (sc : St) (ec : List Event) (e : String)
    (h : generate_notes env st tf = (sc, ec, Except.error e)) : sc = st := by
  unfold generate_notes at h
  rcases hr : fsRead st.fs tf with _ | t
  · rw [hr] at h
    dsimp only at h
    simp [Prod.ext_iff] at h
    exact h.1.symm
  · rw [hr] at h
    dsimp only at h
    rcases ho : env.ollama with _ | s | o <;> rw [ho] at h <;> dsimp only at h <;>
      simp [Prod.ext_iff] at h
    · exact h.1.symm
    · exact h.1.symm

/-- A failing try-block leaves the displayed notes and the notes
artifact unchanged. -/
theorem runStages_error_frame (env : Env) (st s1 : St) (evs : List Event) (e : String)
    (h : runStages env st = (s1, evs, some e)) :
    s1.notes_text = st.notes_text ∧
    fsRead s1.fs (joinPath st.output_folder notesFileName) =
      fsRead st.fs (joinPath st.output_folder notesFileName) := by
  have hdl0 : (dlState st).notes_text = st.notes_text ∧
      (dlState st).output_folder = st.output_folder ∧
      fsRead (dlState st).fs (joinPath st.output_folder notesFileName) =
        fsRead st.fs (joinPath st.output_folder notesFileName) := by
    simp [dlState, mkdirP, fsRead]
  unfold runStages at h
  rcases hd : download_audio env (dlState st) with ⟨sa, ea, ra⟩
  rw [hd] at h
  have hda := download_audio_frame env (dlState st)
  rw [hd] at hda
  rw [hdl0.2.1] at hda
  rcases ra with e0 | af
  · simp [Prod.ext_iff] at h
    rw [← h.1]
    exact ⟨hda.1.trans hdl0.1, hda.2.2.trans hdl0.2.2⟩
  · dsimp only at h
    rcases ht : transcribe_audio env (trState sa) af with ⟨sb, eb, rb⟩
    have hta := transcribe_audio_frame env (trState sa) af
    rw [ht] at hta
    have htr0 : (trState sa).notes_text = sa.notes_text ∧
        (trState sa).output_folder = sa.output_folder ∧
        (trState sa).fs = sa.fs := by simp [trState]
    rw [ht] at h
    rcases rb with e0 | tf
    · simp [Prod.ext_iff] at h
      rw [← h.1]
      constructor
      · exact (hta.1.trans htr0.1).trans (hda.1.trans hdl0.1)
      · have hof : (trState sa).output_folder = st.output_folder := by
          rw [htr0.2.1, hda.2.1]
        rw [← hof]
        rw [hta.2.2, htr0.2.2, hof]
        exact hda.2.2.trans hdl0.2.2
    · dsimp only at h
      rcases hg : generate_notes env (genState sb) tf with ⟨sc, ec, rc⟩
      rw [hg] at h
      rcases rc with e0 | nf
      · simp [Prod.ext_iff] at h
        have hsc := generate_notes_error_frame env (genState sb) tf sc ec e0 hg
        have hgen0 : (genState sb).notes_text = sb.notes_text ∧
            (genState sb).fs = sb.fs := by simp [genState]
        rw [← h.1, hsc]
        constructor
        · exact (hgen0.1.trans ((hta.1.trans htr0.1).trans (hda.1.trans hdl0.1)))
        · rw [hgen0.2]
          have hof : (trState sa).output_folder = st.output_folder := by
            rw [htr0.2.1, hda.2.1]
          rw [← hof, hta.2.2, htr0.2.2, hof]
          exact hda.2.2.trans hdl0.2.2
      · simp [Prod.ext_iff] at h

/-- C10: the displayed notes and the notes artifact are replaced only
when the run succeeds (the summarization backend exited with code zero);
every failing run leaves the previous displayed notes and the previous
lecture_notes.txt content unchanged. -/
theorem C10_failure_preserves_notes (env : Env) (st : St)
    (h : (process_pipeline env st).1.status ≠ successStatus) :
    (process_pipeline env st).1.notes_text = st.notes_text ∧
    fsRead (process_pipeline env st).1.fs (joinPath st.output_folder notesFileName) =
      fsRead st.fs (joinPath st.output_folder notesFileName) := by
  rcases hr : runStages env st with ⟨s1, evs, exc⟩
  rcases exc with _ | e
  · exfalso
    apply h
    have hp : process_pipeline env st = (finallyBlock s1, evs) := by
      unfold process_pipeline
      rw [hr]
    rw [hp]
    exact runStages_none_status env st s1 evs hr
  · have hp : process_pipeline env st =
        (finallyBlock { s1 with status := errStatus e },
         evs ++ [Event.dialogError ("Process failed: " ++ e)]) := by
      unfold process_pipeline
      rw [hr]
    have hf := runStages_error_frame env st s1 evs e hr
    rw [hp]
    exact ⟨hf.1, hf.2⟩

def stPrevNotes : St :=
  { stInit with
    notes_text := "OLD NOTES"
    fs := fsWrite fs0 (joinPath "./" notesFileName) "OLD NOTES" }

/-- C10 witness: a run failing at download leaves the previous notes and
the previous notes artifact in place. -/
theorem C10_failure_preserves_notes_witness :
    (process_pipeline envYtdlpMissing stPrevNotes).1.notes_text = stPrevNotes.notes_text ∧
    fsRead (process_pipeline envYtdlpMissing stPrevNotes).1.fs
        (joinPath stPrevNotes.output_folder notesFileName) =
      fsRead stPrevNotes.fs (joinPath stPrevNotes.output_folder notesFileName) :=
  C10_failure_preserves_notes envYtdlpMissing stPrevNotes (by decide)

/-- C7: in a successful run each stage writes exactly one artifact file,
at the three fixed names under the output directory, and re-running the
pipeline against the same output directory overwrites them: after the
second successful run the audio, transcript and notes artifacts hold
exactly the contents of the second run — in particular the notes file equals
exactly the second summarizer response, with nothing of the content of the
first run remaining. -/
theorem C7_rerun_overwrites (env1 env2 : Env) (st : St)
    (c1 t1 o1 c2 t2 o2 : String)
    (h11 : env1.ytdlp = ToolOutcome.succeeds c1)
    (h12 : env1.whisperAvailable = true)
    (h13 : ∀ s, env1.whisperLoad s = Except.ok ())
    (h14 : ∀ s a, env1.whisperTranscribe s a = Except.ok t1)
    (h15 : env1.ollama = ToolOutcome.succeeds o1)
    (h21 : env2.ytdlp = ToolOutcome.succeeds c2)
    (h22 : env2.whisperAvailable = true)
    (h23 : ∀ s, env2.whisperLoad s = Except.ok ())
    (h24 : ∀ s a, env2.whisperTranscribe s a = Except.ok t2)
    (h25 : env2.ollama = ToolOutcome.succeeds o2) :
    fileWritesOf (process_pipeline env2 (process_pipeline env1 st).1).2 =
      [joinPath st.output_folder audioFileName,
       joinPath st.output_folder transcriptFileName,
       joinPath st.output_folder notesFileName] ∧
    fsRead (process_pipeline env2 (process_pipeline env1 st).1).1.fs
        (joinPath st.output_folder notesFileName) = some o2 ∧
    fsRead (process_pipeline env2 (process_pipeline env1 st).1).1.fs
        (joinPath st.output_folder transcriptFileName) = some t2 ∧
    fsRead (process_pipeline env2 (process_pipeline env1 st).1).1.fs
        (joinPath st.output_folder audioFileName) = some c2 := by
  have hne_tn : joinPath st.output_folder transcriptFileName ≠
      joinPath st.output_folder notesFileName :=
    joinPath_ne_of_length_ne st.output_folder transcriptFileName notesFileName (by decide)
  have hne_an : joinPath st.output_folder audioFileName ≠
      joinPath st.output_folder notesFileName :=
    joinPath_ne_of_length_ne st.output_folder audioFileName notesFileName (by decide)
  have hne_at : joinPath st.output_folder audioFileName ≠
      joinPath st.output_folder transcriptFileName :=
    joinPath_ne_of_length_ne st.output_folder audioFileName transcriptFileName (by decide)
  have hne_nt : joinPath st.output_folder notesFileName ≠
      joinPath st.output_folder transcriptFileName := fun h => hne_tn h.symm
  have hne_na : joinPath st.output_folder notesFileName ≠
      joinPath st.output_folder audioFileName := fun h => hne_an h.symm
  have hne_ta : joinPath st.output_folder transcriptFileName ≠
      joinPath st.output_folder audioFileName := fun h => hne_at h.symm
  rcases hwm : st.whisper_model with _ | m <;>
    simp [process_pipeline, runStages, download_audio, transcribe_audio, transcribeWith,
      generate_notes, dlState, trState, genState, finallyBlock, mkdirP, fsRead, fsWrite,
      fileWritesOf, List.filterMap_append, h11, h12, h13, h14, h15, h21, h22, h23, h24, h25,
      hwm, hne_tn, hne_an, hne_at, hne_nt, hne_na, hne_ta]

/-- First-run environment for the C7 witness. -/
def envRun1 : Env :=
  { ytdlp := .succeeds "AUDIO1"
    whisperAvailable := true
    whisperError := ""
    whisperLoad := fun _ => .ok ()
    whisperTranscribe := fun _ _ => .ok "TRANSCRIPT1"
    ollama := .succeeds "NOTES1" }

/-- Second-run environment for the C7 witness, with different contents. -/
def envRun2 : Env :=
  { envRun1 with
    ytdlp := .succeeds "AUDIO2"
    whisperTranscribe := fun _ _ => .ok "TRANSCRIPT2"
    ollama := .succeeds "NOTES2" }

/-- C7 witness: two concrete successful runs against the same output
directory; the artifacts end up holding exactly the second contents. -/
theorem C7_rerun_overwrites_witness :
    fileWritesOf (process_pipeline envRun2 (process_pipeline envRun1 stInit).1).2 =
      [joinPath stInit.output_folder audioFileName,
       joinPath stInit.output_folder transcriptFileName,
       joinPath stInit.output_folder notesFileName] ∧
    fsRead (process_pipeline envRun2 (process_pipeline envRun1 stInit).1).1.fs
        (joinPath stInit.output_folder notesFileName) = some "NOTES2" ∧
    fsRead (process_pipeline envRun2 (process_pipeline envRun1 stInit).1).1.fs
        (joinPath stInit.output_folder transcriptFileName) = some "TRANSCRIPT2" ∧
    fsRead (process_pipeline envRun2 (process_pipeline envRun1 stInit).1).1.fs
        (joinPath stInit.output_folder audioFileName) = some "AUDIO2" :=
  C7_rerun_overwrites envRun1 envRun2 stInit
    "AUDIO1" "TRANSCRIPT1" "NOTES1" "AUDIO2" "TRANSCRIPT2" "NOTES2"
    rfl rfl (fun _ => rfl) (fun _ _ => rfl) rfl
    rfl rfl (fun _ => rfl) (fun _ _ => rfl) rfl

end LectureNotes
